import Mathlib

/-!
Verification development for the GatePlane CLI's interactive OIDC login
subsystem (`cmd/auth.go`) and its error-wrapping helpers
(`pkg/errors/errors.go`).

The Go source is shallowly embedded: pure helpers become Lean functions,
and the orchestrator `performOIDCLogin` becomes a function from an
environment (recording the outcomes of its I/O interactions: wrapped-token
creation, the callback/timeout race, manual input, the token-endpoint
response) to an event trace plus a result.  Deferred cleanup (`defer
server.Shutdown`) is modelled by appending the shutdown event at each
return point of the browser-flow branch, exactly where Go runs the
deferred call.
-/

namespace GatePlane

/- ## SHA-256 over byte lists (bytes are `Nat < 256`, words are `Nat < 2^32`)

Embeds the hash used by `oauth2.S256ChallengeOption`: the PKCE challenge is
the URL-safe, unpadded base64 of the SHA-256 digest of the verifier. -/

def add32 (a b : Nat) : Nat := (a + b) % 4294967296

def rotr32 (n x : Nat) : Nat := ((x >>> n) ||| (x <<< (32 - n))) % 4294967296

def smallSigma0 (x : Nat) : Nat := (rotr32 7 x) ^^^ (rotr32 18 x) ^^^ (x >>> 3)

def smallSigma1 (x : Nat) : Nat := (rotr32 17 x) ^^^ (rotr32 19 x) ^^^ (x >>> 10)

def bigSigma0 (x : Nat) : Nat := (rotr32 2 x) ^^^ (rotr32 13 x) ^^^ (rotr32 22 x)

def bigSigma1 (x : Nat) : Nat := (rotr32 6 x) ^^^ (rotr32 11 x) ^^^ (rotr32 25 x)

def chFn (e f g : Nat) : Nat := (e &&& f) ^^^ ((e ^^^ 4294967295) &&& g)

def majFn (a b c : Nat) : Nat := (a &&& b) ^^^ (a &&& c) ^^^ (b &&& c)

def sha256K : List Nat :=
  [1116352408, 1899447441, 3049323471, 3921009573, 961987163,
   1508970993, 2453635748, 2870763221, 3624381080, 310598401,
   607225278, 1426881987, 1925078388, 2162078206, 2614888103,
   3248222580, 3835390401, 4022224774, 264347078, 604807628,
   770255983, 1249150122, 1555081692, 1996064986, 2554220882,
   2821834349, 2952996808, 3210313671, 3336571891, 3584528711,
   113926993, 338241895, 666307205, 773529912, 1294757372,
   1396182291, 1695183700, 1986661051, 2177026350, 2456956037,
   2730485921, 2820302411, 3259730800, 3345764771, 3516065817,
   3600352804, 4094571909, 275423344, 430227734, 506948616,
   659060556, 883997877, 958139571, 1322822218, 1537002063,
   1747873779, 1955562222, 2024104815, 2227730452, 2361852424,
   2428436474, 2756734187, 3204031479, 3329325298]

def sha256H0 : List Nat :=
  [1779033703, 3144134277, 1013904242, 2773480762,
   1359893119, 2600822924, 528734635, 1541459225]

def be64 (n : Nat) : List Nat :=
  [(n >>> 56) &&& 255, (n >>> 48) &&& 255, (n >>> 40) &&& 255, (n >>> 32) &&& 255,
   (n >>> 24) &&& 255, (n >>> 16) &&& 255, (n >>> 8) &&& 255, n &&& 255]

def sha256Pad (msg : List Nat) : List Nat :=
  msg ++ [0x80] ++ List.replicate ((119 - msg.length % 64) % 64) 0 ++ be64 (msg.length * 8)

def bytesToWords32 : List Nat → List Nat
  | a :: b :: c :: d :: rest => (((a * 256 + b) * 256 + c) * 256 + d) :: bytesToWords32 rest
  | _ => []

def extendW : Nat → Array Nat → Array Nat
  | 0, w => w
  | n + 1, w =>
    let i := w.size
    let s0 := smallSigma0 (w.getD (i - 15) 0)
    let s1 := smallSigma1 (w.getD (i - 2) 0)
    extendW n (w.push (add32 (add32 (w.getD (i - 16) 0) s0) (add32 (w.getD (i - 7) 0) s1)))

structure Sha256State where
  a : Nat
  b : Nat
  c : Nat
  d : Nat
  e : Nat
  f : Nat
  g : Nat
  h : Nat
deriving Repr, DecidableEq

def stateOfList : List Nat → Sha256State
  | [a, b, c, d, e, f, g, h] => ⟨a, b, c, d, e, f, g, h⟩
  | _ => ⟨0, 0, 0, 0, 0, 0, 0, 0⟩

def compressRound (st : Sha256State) (kw : Nat × Nat) : Sha256State :=
  let t1 := add32 (add32 st.h (bigSigma1 st.e)) (add32 (chFn st.e st.f st.g) (add32 kw.1 kw.2))
  let t2 := add32 (bigSigma0 st.a) (majFn st.a st.b st.c)
  ⟨add32 t1 t2, st.a, st.b, st.c, add32 st.d t1, st.e, st.f, st.g⟩

def addStates (x y : Sha256State) : Sha256State :=
  ⟨add32 x.a y.a, add32 x.b y.b, add32 x.c y.c, add32 x.d y.d,
   add32 x.e y.e, add32 x.f y.f, add32 x.g y.g, add32 x.h y.h⟩

def compressBlock (h : Sha256State) (block : List Nat) : Sha256State :=
  let ws := extendW 48 (Array.mk (bytesToWords32 block))
  addStates h ((sha256K.zip ws.toList).foldl compressRound h)

/-- Iterate the compression function over `n` 64-byte blocks. -/
def sha256Iter : Nat → Sha256State → List Nat → Sha256State
  | 0, h, _ => h
  | n + 1, h, msg => sha256Iter n (compressBlock h (msg.take 64)) (msg.drop 64)

def wordToBytes (n : Nat) : List Nat :=
  [(n >>> 24) &&& 255, (n >>> 16) &&& 255, (n >>> 8) &&& 255, n &&& 255]

def sha256 (msg : List Nat) : List Nat :=
  let padded := sha256Pad msg
  let st := sha256Iter (padded.length / 64) (stateOfList sha256H0) padded
  wordToBytes st.a ++ wordToBytes st.b ++ wordToBytes st.c ++ wordToBytes st.d ++
  wordToBytes st.e ++ wordToBytes st.f ++ wordToBytes st.g ++ wordToBytes st.h

/- ## URL-safe base64 without padding (Go `base64.RawURLEncoding`) -/

def b64urlAlphabet : List Char :=
  "ABCDEFGHIJKLMNOPQRSTUVWXYZabcdefghijklmnopqrstuvwxyz0123456789-_".data

def b64c (n : Nat) : Char := b64urlAlphabet.getD n 'A'

def b64urlEncode : List Nat → List Char
  | [] => []
  | [a] => [b64c (a >>> 2), b64c ((a &&& 3) <<< 4)]
  | [a, b] => [b64c (a >>> 2), b64c (((a &&& 3) <<< 4) ||| (b >>> 4)), b64c ((b &&& 15) <<< 2)]
  | a :: b :: c :: rest =>
    b64c (a >>> 2) :: b64c (((a &&& 3) <<< 4) ||| (b >>> 4)) ::
    b64c (((b &&& 15) <<< 2) ||| (c >>> 6)) :: b64c (c &&& 63) :: b64urlEncode rest

def b64urlNoPad (bs : List Nat) : String := String.mk (b64urlEncode bs)

/-- Bytes of an ASCII string (PKCE verifiers and challenges are ASCII). -/
def strBytes (s : String) : List Nat := s.data.map Char.toNat

/-- The PKCE S256 transform used by `oauth2.S256ChallengeOption`:
URL-safe unpadded base64 of the SHA-256 digest of the verifier. -/
def s256Challenge (verifier : String) : String := b64urlNoPad (sha256 (strBytes verifier))

/- ## Go error values (`pkg/errors/errors.go`) -/

inductive GoError
  | base (msg : String)
  | wrapped (msg : String) (inner : GoError)
  | vaultError (operation gate : String) (err : Option GoError)
deriving Repr

/-- `errors.As(err, &vaultErr)` with target type `*VaultError`: walks the
`Unwrap` chain (`fmt.Errorf` with `%w` unwraps to the wrapped error; a
`VaultError` would unwrap to its `Err` field, but `As` already matches it
at the node itself). -/
def errorsAsVault : GoError → Bool
  | .vaultError _ _ _ => true
  | .wrapped _ inner => errorsAsVault inner
  | .base _ => false

def NewVaultError (operation gate : String) (err : Option GoError) : GoError :=
  .vaultError operation gate err

/-- `WrapVaultError` (pkg/errors/errors.go:77-89). -/
def WrapVaultError (operation gate : String) (err : Option GoError) : Option GoError :=
  match err with
  | none => none
  | some e => if errorsAsVault e then some e else some (NewVaultError operation gate (some e))

/- ## The callback listener (`startCallbackServer`, src/cmd/auth.go:483-528) -/

structure CallbackRequest where
  code : String
  state : String
  errorParam : String
  errorDesc : String
deriving Repr, DecidableEq

structure HandlerResponse where
  status : Nat
  body : String
deriving Repr, DecidableEq

/-- Go's `callbackResult` struct. -/
structure CallbackResultM where
  code : String
  state : String
  error : Option String
deriving Repr, DecidableEq

def oidcErrMsg (e d : String) : String :=
  if d ≠ "" then "OIDC error: " ++ e ++ " - " ++ d else "OIDC error: " ++ e

def failureHTML (msg : String) : String :=
  "<html><body><h1>Authentication Failed</h1><p>" ++ msg ++
    "</p><p>You can close this window.</p></body></html>"

def successHTML : String :=
  "<html><body><h1>Authentication Successful</h1><p>You can close this window and return to the CLI.</p></body></html>"

/-- The `/oidc/callback` handler: one HTTP request in; out come the list of
values pushed onto the capacity-1 result channel (one entry per
`resultCh <-` statement executed) and the HTTP response written. -/
def handleCallback (r : CallbackRequest) : List CallbackResultM × HandlerResponse :=
  if r.errorParam ≠ "" then
    ([⟨"", "", some (oidcErrMsg r.errorParam r.errorDesc)⟩],
     ⟨400, failureHTML (oidcErrMsg r.errorParam r.errorDesc)⟩)
  else if r.code = "" then
    ([⟨"", "", some "no authorization code received"⟩],
     ⟨400, failureHTML "No authorization code received"⟩)
  else
    ([⟨r.code, r.state, none⟩], ⟨200, successHTML⟩)

/- ## The token exchanger (`exchangeCodeForToken`, src/cmd/auth.go:531-559) -/

inductive ExtraVal
  | str (s : String)
  | nonString
deriving Repr, DecidableEq

structure TokenResponse where
  accessToken : String
  tokenType : String
  extra : List (String × ExtraVal)
deriving Repr, DecidableEq

/-- `token.Extra("id_token").(string)`: the extension field, when present
and a string. -/
def extraString (t : TokenResponse) (k : String) : Option String :=
  match t.extra.lookup k with
  | some (.str s) => some s
  | _ => none

/-- What the token endpoint does for this exchange: a transport/HTTP
failure, or a decoded token response. -/
inductive ExchangeOutcome
  | httpError (msg : String)
  | response (tok : TokenResponse)
deriving Repr, DecidableEq

/-- `exchangeCodeForToken`: on transport/HTTP failure, the wrapped error;
on success, the `id_token` extension field of the response, failing when it
is absent, not a string, or empty. -/
def exchangeCodeForToken : ExchangeOutcome → Except String String
  | .httpError m => .error ("failed to exchange code for token: " ++ m)
  | .response tok =>
    match extraString tok "id_token" with
    | some s => if s = "" then .error "no ID token received from OIDC provider" else .ok s
    | none => .error "no ID token received from OIDC provider"

/- ## The login orchestrator (`performOIDCLogin`, src/cmd/auth.go:326-409) -/

/-- Which branch of the waiter goroutine's `select` runs: a value arrives
on `serverCh` first, or the 5-minute timer fires first. -/
inductive WaitOutcome
  | result (r : CallbackResultM)
  | timeout
deriving Repr, DecidableEq

inductive Event
  | warnBootstrap (msg : String)
  | listenerStart
  | browserOpen
  | waitResolved
  | promptManual
  | exchangeCall (code : String) (verifier : String)
  | listenerShutdown
deriving Repr, DecidableEq

/-- Environment of one `performOIDCLogin` run: the outcome of each of its
interactions with the outside world. -/
structure OIDCEnv where
  vaultAddr : String
  clientID : String
  skipBrowser : Bool
  wrapResult : Except String String
  verifier : String
  browserErr : Option String
  waitOutcome : WaitOutcome
  manualInput : Except String String
  exchangeOutcome : ExchangeOutcome

def oauthScopes : List String := ["openid", "profile", "messenger_options"]

/-- `autoLoginParams`: the query parameters baked into the authorize
endpoint URL, present exactly when `CreateWrappedToken` succeeded. -/
def autoLoginParamsOf (env : OIDCEnv) : List (String × String) :=
  match env.wrapResult with
  | .error _ => []
  | .ok t => [("wrapped_token", t), ("with", "token")]

/-- Query parameters of the authorization URL built by
`config.AuthCodeURL("state", oauth2.S256ChallengeOption(verifier))`:
the auto-login parameters already embedded in `Endpoint.AuthURL`, then the
OAuth2 parameters in `url.Values.Encode` alphabetical order. -/
def authURLParamsOf (env : OIDCEnv) : List (String × String) :=
  autoLoginParamsOf env ++
    [("client_id", env.clientID),
     ("code_challenge", s256Challenge env.verifier),
     ("code_challenge_method", "S256"),
     ("redirect_uri", "http://localhost:45450/oidc/callback"),
     ("response_type", "code"),
     ("scope", String.intercalate " " oauthScopes),
     ("state", "state")]

structure LoginRun where
  trace : List Event
  result : Except String String
deriving Repr

/-- The waiter goroutine (src/cmd/auth.go:366-378): exactly one `select`
branch runs, setting `(authError, authCode)`. -/
def waiterSelect : WaitOutcome → Option String × String
  | .result r =>
    match r.error with
    | some e => (some e, "")
    | none => (none, r.code)
  | .timeout => (some "authentication timed out", "")

def bootstrapEvents (env : OIDCEnv) : List Event :=
  match env.wrapResult with
  | .error e => [.warnBootstrap e]
  | .ok _ => []

/-- `performOIDCLogin` as a trace-producing function of its environment.
The deferred `server.Shutdown(...)` is the `.listenerShutdown` event,
placed at each return point of the browser-flow branch — where Go runs the
deferred call. -/
def performOIDCLogin (env : OIDCEnv) : LoginRun :=
  let pre := bootstrapEvents env
  if env.skipBrowser then
    match env.manualInput with
    | .error e => ⟨pre ++ [.promptManual], .error ("failed to read authorization code: " ++ e)⟩
    | .ok authCode =>
      if authCode = "" then
        ⟨pre ++ [.promptManual], .error "no authorization code received"⟩
      else
        ⟨pre ++ [.promptManual, .exchangeCall authCode env.verifier],
         exchangeCodeForToken env.exchangeOutcome⟩
  else
    let browserEvents := [Event.listenerStart, Event.browserOpen, Event.waitResolved]
    match waiterSelect env.waitOutcome with
    | (some e, _) => ⟨pre ++ browserEvents ++ [.listenerShutdown], .error e⟩
    | (none, authCode) =>
      if authCode = "" then
        ⟨pre ++ browserEvents ++ [.listenerShutdown], .error "no authorization code received"⟩
      else
        ⟨pre ++ browserEvents ++ [.exchangeCall authCode env.verifier, .listenerShutdown],
         exchangeCodeForToken env.exchangeOutcome⟩

/- ## Trace predicates -/

def isExchangeEvent : Event → Bool
  | .exchangeCall _ _ => true
  | _ => false

def isShutdownEvent : Event → Bool
  | .listenerShutdown => true
  | _ => false

def isBrowserOpenEvent : Event → Bool
  | .browserOpen => true
  | _ => false

def isWaitResolvedEvent : Event → Bool
  | .waitResolved => true
  | _ => false

/-- `true` when a listener-shutdown event occurs strictly before the first
token-exchange call of the trace. -/
def shutdownBeforeFirstExchange (tr : List Event) : Bool :=
  (tr.takeWhile fun e => !isExchangeEvent e).any isShutdownEvent

def exchangeCodesNonEmpty (tr : List Event) : Bool :=
  tr.all fun e =>
    match e with
    | .exchangeCall c _ => c != ""
    | _ => true

/- ## Concrete runs used by witnesses and counterexamples -/

/-- A run in which everything succeeds: wrapped token created, callback
delivers a code, token endpoint returns an `id_token`. -/
def envBase : OIDCEnv where
  vaultAddr := "https://vault.example.com:8200"
  clientID := "gateplane-cli"
  skipBrowser := false
  wrapResult := .ok "hvs.wrapped123"
  verifier := "dBjftJeZ4CVP-mB92K27uhbUJU1p1r_wW1gFWFOEjXk"
  browserErr := none
  waitOutcome := .result ⟨"authcode1", "state", none⟩
  manualInput := .ok "authcode1"
  exchangeOutcome := .response ⟨"x", "bearer", [("id_token", .str "eyXYZ")]⟩

/-- A run whose local port is already in use: `ListenAndServe` fails and the
serving goroutine pushes the bind error onto the result channel. -/
def envBindFail : OIDCEnv :=
  { envBase with
    waitOutcome :=
      .result ⟨"", "", some "callback server error: listen tcp :45450: bind: address already in use"⟩ }

/-- A run in which the 5-minute timer wins the race. -/
def envTimeout : OIDCEnv := { envBase with waitOutcome := .timeout }

/-- A run in which `CreateWrappedToken` fails but the callback succeeds. -/
def envWrapFail : OIDCEnv := { envBase with wrapResult := .error "permission denied" }

/-- A (normally unreachable) callback result with a nil error and an empty
code. -/
def envEmptyCode : OIDCEnv := { envBase with waitOutcome := .result ⟨"", "", none⟩ }

/-- Two runs drawing different randomness for the PKCE verifier. -/
def envRandomA : OIDCEnv := { envBase with verifier := "AAAFirstRandomVerifierAAAFirstRandomVerifier" }

def envRandomB : OIDCEnv := { envBase with verifier := "BBBSecondRandomVerifierBBBSecondRandomVerif" }

/-- The token response of the Token Exchanger test in the specification. -/
def tokWithID : TokenResponse := ⟨"x", "bearer", [("id_token", .str "eyXYZ")]⟩

/-- The same response without the `id_token` field. -/
def tokNoID : TokenResponse := ⟨"x", "bearer", []⟩

/- ## Sanity of the S256 embedding -/

set_option maxRecDepth 100000 in
/-- RFC 7636 appendix B test vector: the S256 transform of the example
verifier is the example challenge, pinning the SHA-256/base64url embedding
to the standard transform the oauth2 library implements. -/
theorem s256Challenge_rfc7636 :
    s256Challenge "dBjftJeZ4CVP-mB92K27uhbUJU1p1r_wW1gFWFOEjXk"
      = "E9Melhoa2OwvFrEMTJguCHaoeK1t8URWbuGJSstw-cM" := by decide

/- ## C10: WrapVaultError -/

/-- C10: `WrapVaultError` returns nil exactly when given nil; it returns an
error that already is (or wraps, through its `Unwrap` chain) a `*VaultError`
unchanged; hence re-wrapping an already-wrapped error never adds a second
layer of Vault operation context. -/
theorem c10_wrap_vault_error :
    (∀ op g e, WrapVaultError op g e = none ↔ e = none)
    ∧ (∀ op g e, errorsAsVault e = true → WrapVaultError op g (some e) = some e)
    ∧ (∀ op g op2 g2 e, WrapVaultError op g (WrapVaultError op2 g2 e) = WrapVaultError op2 g2 e) := by
  refine ⟨?_, ?_, ?_⟩
  · intro op g e
    cases e with
    | none => simp [WrapVaultError]
    | some x =>
      simp only [WrapVaultError]
      split <;> simp
  · intro op g e h
    simp [WrapVaultError, h]
  · intro op g op2 g2 e
    cases e with
    | none => simp [WrapVaultError]
    | some x =>
      simp only [WrapVaultError]
      by_cases h : errorsAsVault x
      · simp [h, WrapVaultError]
      · simp [h, WrapVaultError, NewVaultError, errorsAsVault]

/-- C10 witness: wrapping an error that already is a `VaultError` returns
it unchanged. -/
theorem c10_wrap_vault_error_witness :
    WrapVaultError "read secret" "prod"
        (some (GoError.vaultError "create request" "dev" none))
      = some (GoError.vaultError "create request" "dev" none) :=
  c10_wrap_vault_error.2.1 "read secret" "prod"
    (GoError.vaultError "create request" "dev" none) rfl

/- ## C6: the Token Exchanger's id_token extraction -/

/-- C6: after a successful HTTP exchange the Token Exchanger returns exactly
the `id_token` extension field when it is present and non-empty, and fails
with the missing-identity-token error when the field is absent or empty. -/
theorem c6_id_token_extraction (tok : TokenResponse) :
    (∀ s, extraString tok "id_token" = some s → s ≠ "" →
        exchangeCodeForToken (.response tok) = .ok s)
    ∧ (extraString tok "id_token" = none →
        exchangeCodeForToken (.response tok)
          = .error "no ID token received from OIDC provider")
    ∧ (extraString tok "id_token" = some "" →
        exchangeCodeForToken (.response tok)
          = .error "no ID token received from OIDC provider") := by
  refine ⟨?_, ?_, ?_⟩
  · intro s hs hne
    simp [exchangeCodeForToken, hs, hne]
  · intro hs
    simp [exchangeCodeForToken, hs]
  · intro hs
    simp [exchangeCodeForToken, hs]

/-- C6 witness: `{"access_token":"x","token_type":"bearer","id_token":"eyXYZ"}`
yields `"eyXYZ"`, and the same response without `id_token` yields the
missing-identity-token error. -/
theorem c6_id_token_extraction_witness :
    exchangeCodeForToken (.response tokWithID) = .ok "eyXYZ"
    ∧ exchangeCodeForToken (.response tokNoID)
        = .error "no ID token received from OIDC provider" :=
  ⟨(c6_id_token_extraction tokWithID).1 "eyXYZ" (by decide) (by decide),
   (c6_id_token_extraction tokNoID).2.1 (by decide)⟩

/- ## C3: the callback handler's three-way case split -/

/-- C3: the `/oidc/callback` handler publishes a failure derived from the
`error` (and optional `error_description`) parameters with an HTTP 400
failure page; otherwise, on a non-empty `code`, publishes the code/state
pair with an HTTP 200 success page; otherwise publishes the
no-authorization-code failure with an HTTP 400 page. -/
theorem c3_handler_cases (r : CallbackRequest) :
    (r.errorParam ≠ "" →
      handleCallback r
        = ([⟨"", "", some (oidcErrMsg r.errorParam r.errorDesc)⟩],
           ⟨400, failureHTML (oidcErrMsg r.errorParam r.errorDesc)⟩))
    ∧ (r.errorParam = "" → r.code ≠ "" →
      handleCallback r = ([⟨r.code, r.state, none⟩], ⟨200, successHTML⟩))
    ∧ (r.errorParam = "" → r.code = "" →
      handleCallback r
        = ([⟨"", "", some "no authorization code received"⟩],
           ⟨400, failureHTML "No authorization code received"⟩)) := by
  refine ⟨?_, ?_, ?_⟩
  · intro he
    simp [handleCallback, he]
  · intro he hc
    simp [handleCallback, he, hc]
  · intro he hc
    simp [handleCallback, he, hc]

/-- C3 witness: the three cases at concrete requests. -/
theorem c3_handler_cases_witness :
    handleCallback ⟨"", "", "access_denied", "user declined"⟩
      = ([⟨"", "", some "OIDC error: access_denied - user declined"⟩],
         ⟨400, failureHTML "OIDC error: access_denied - user declined"⟩)
    ∧ handleCallback ⟨"authcode1", "state", "", ""⟩
        = ([⟨"authcode1", "state", none⟩], ⟨200, successHTML⟩)
    ∧ handleCallback ⟨"", "state", "", ""⟩
        = ([⟨"", "", some "no authorization code received"⟩],
           ⟨400, failureHTML "No authorization code received"⟩) :=
  ⟨(c3_handler_cases ⟨"", "", "access_denied", "user declined"⟩).1 (by decide),
   (c3_handler_cases ⟨"authcode1", "state", "", ""⟩).2.1 (by decide) (by decide),
   (c3_handler_cases ⟨"", "state", "", ""⟩).2.2 (by decide) (by decide)⟩

/- ## C1: shutdown versus token exchange ordering -/

/-- C1 counterexample: in a fully successful browser-path run the token
exchange call appears in the trace with no listener-shutdown event before
it — the deferred `server.Shutdown` only runs when `performOIDCLogin`
returns, after `exchangeCodeForToken`. -/
theorem c1_counterexample :
    (performOIDCLogin envBase).trace
      = [.listenerStart, .browserOpen, .waitResolved,
         .exchangeCall "authcode1" "dBjftJeZ4CVP-mB92K27uhbUJU1p1r_wW1gFWFOEjXk",
         .listenerShutdown]
    ∧ shutdownBeforeFirstExchange (performOIDCLogin envBase).trace = false :=
  ⟨rfl, rfl⟩

/-- C1 (amended): in the browser path the listener shutdown runs exactly
once and is the final action of the run — after the token exchange, not
before it — and the token exchange never starts until the wait on the
callback-result/timeout race has resolved. -/
theorem c1_shutdown_last_exchange_after_wait (env : OIDCEnv)
    (h : env.skipBrowser = false) :
    (performOIDCLogin env).trace.countP (fun e => isShutdownEvent e) = 1
    ∧ (performOIDCLogin env).trace.getLast? = some .listenerShutdown
    ∧ ((performOIDCLogin env).trace.any isExchangeEvent = true →
        ((performOIDCLogin env).trace.takeWhile fun e => !isExchangeEvent e).any
            isWaitResolvedEvent = true) := by
  cases hwo : env.waitOutcome with
  | timeout =>
    cases hwr : env.wrapResult with
    | error m =>
      simp [performOIDCLogin, h, waiterSelect, hwo, bootstrapEvents, hwr,
            isShutdownEvent, isExchangeEvent, isWaitResolvedEvent, List.countP_cons]
    | ok t =>
      simp [performOIDCLogin, h, waiterSelect, hwo, bootstrapEvents, hwr,
            isShutdownEvent, isExchangeEvent, isWaitResolvedEvent, List.countP_cons]
  | result r =>
    cases herr : r.error with
    | some e =>
      cases hwr : env.wrapResult with
      | error m =>
        simp [performOIDCLogin, h, waiterSelect, hwo, herr, bootstrapEvents, hwr,
              isShutdownEvent, isExchangeEvent, isWaitResolvedEvent, List.countP_cons]
      | ok t =>
        simp [performOIDCLogin, h, waiterSelect, hwo, herr, bootstrapEvents, hwr,
              isShutdownEvent, isExchangeEvent, isWaitResolvedEvent, List.countP_cons]
    | none =>
      by_cases hc : r.code = "" <;>
      cases hwr : env.wrapResult <;>
        simp [performOIDCLogin, h, waiterSelect, hwo, herr, bootstrapEvents, hwr, hc,
              isShutdownEvent, isExchangeEvent, isWaitResolvedEvent, List.countP_cons]

/-- C1 witness for the amended statement, at the successful run. -/
theorem c1_shutdown_last_witness :
    (performOIDCLogin envBase).trace.countP (fun e => isShutdownEvent e) = 1
    ∧ (performOIDCLogin envBase).trace.getLast? = some .listenerShutdown
    ∧ ((performOIDCLogin envBase).trace.any isExchangeEvent = true →
        ((performOIDCLogin envBase).trace.takeWhile fun e => !isExchangeEvent e).any
            isWaitResolvedEvent = true) :=
  c1_shutdown_last_exchange_after_wait envBase rfl

/- ## C2: single production, single consumption -/

/-- C2: every request the callback handler serves pushes exactly one result
onto the capacity-1 channel, and the orchestrator's single `select`
consumes exactly one outcome: when the timeout wins, the run fails with the
timeout error and no token exchange happens (a late callback is never acted
on); when a callback result wins, that result alone determines the run —
an error callback yields exactly that error, and a success callback leads
to the exchange of its code. -/
theorem c2_single_production_consumption (req : CallbackRequest) (env : OIDCEnv)
    (h : env.skipBrowser = false) :
    (handleCallback req).1.length = 1
    ∧ (env.waitOutcome = .timeout →
        (performOIDCLogin env).result = .error "authentication timed out"
        ∧ (performOIDCLogin env).trace.any isExchangeEvent = false)
    ∧ (∀ r e, env.waitOutcome = .result r → r.error = some e →
        (performOIDCLogin env).result = .error e)
    ∧ (∀ r, env.waitOutcome = .result r → r.error = none → r.code ≠ "" →
        Event.exchangeCall r.code env.verifier ∈ (performOIDCLogin env).trace) := by
  refine ⟨?_, ?_, ?_, ?_⟩
  · unfold handleCallback
    split
    · rfl
    · split <;> rfl
  · intro hwo
    cases hwr : env.wrapResult <;>
      simp [performOIDCLogin, h, waiterSelect, hwo, bootstrapEvents, hwr, isExchangeEvent]
  · intro r e hwo herr
    simp [performOIDCLogin, h, waiterSelect, hwo, herr]
  · intro r hwo herr hc
    cases hwr : env.wrapResult <;>
      simp [performOIDCLogin, h, waiterSelect, hwo, herr, hc, bootstrapEvents, hwr]

/-- C2 witness: at a timed-out run the select's timeout branch alone decides
the outcome. -/
theorem c2_single_production_consumption_witness :
    (performOIDCLogin envTimeout).result = .error "authentication timed out"
    ∧ (performOIDCLogin envTimeout).trace.any isExchangeEvent = false :=
  (c2_single_production_consumption ⟨"authcode1", "state", "", ""⟩ envTimeout rfl).2.1 rfl

/- ## C4: bind failure versus browser launch -/

/-- C4 counterexample: in a run whose port bind fails (the serving
goroutine pushes the bind error onto the channel), the login aborts with
that error — yet the browser-open event still occurs, because
`browser.OpenURL` runs unconditionally before the wait. -/
theorem c4_counterexample :
    (performOIDCLogin envBindFail).result
      = .error "callback server error: listen tcp :45450: bind: address already in use"
    ∧ (performOIDCLogin envBindFail).trace.any isBrowserOpenEvent = true :=
  ⟨rfl, rfl⟩

/-- C4 (amended): a bind failure is reported to the orchestrator through
the result channel and the attempt aborts with that error before any token
exchange, with the listener handle still cleaned up — but the browser
launch is attempted unconditionally before the wait, so it still occurs. -/
theorem c4_bind_failure_aborts_after_browser (env : OIDCEnv) (e : String)
    (h : env.skipBrowser = false)
    (hw : env.waitOutcome = .result ⟨"", "", some e⟩) :
    (performOIDCLogin env).result = .error e
    ∧ (performOIDCLogin env).trace.any isExchangeEvent = false
    ∧ (performOIDCLogin env).trace.any isShutdownEvent = true
    ∧ (performOIDCLogin env).trace.any isBrowserOpenEvent = true := by
  cases hwr : env.wrapResult <;>
    simp [performOIDCLogin, h, waiterSelect, hw, bootstrapEvents, hwr,
          isExchangeEvent, isShutdownEvent, isBrowserOpenEvent]

/-- C4 witness for the amended statement, at the bind-failure run. -/
theorem c4_bind_failure_witness :
    (performOIDCLogin envBindFail).result
        = .error "callback server error: listen tcp :45450: bind: address already in use"
    ∧ (performOIDCLogin envBindFail).trace.any isExchangeEvent = false
    ∧ (performOIDCLogin envBindFail).trace.any isShutdownEvent = true
    ∧ (performOIDCLogin envBindFail).trace.any isBrowserOpenEvent = true :=
  c4_bind_failure_aborts_after_browser envBindFail
    "callback server error: listen tcp :45450: bind: address already in use" rfl rfl

/- ## C5: PKCE verifier/challenge binding -/

/-- C5: whenever a run calls the token exchanger with some verifier, that
verifier is the one generated for this attempt, and the `code_challenge`
parameter of this same attempt's authorization URL equals its S256
transform (SHA-256, then URL-safe base64 without padding). -/
theorem c5_pkce_binding (env : OIDCEnv) (c v : String)
    (h : Event.exchangeCall c v ∈ (performOIDCLogin env).trace) :
    v = env.verifier
    ∧ (authURLParamsOf env).lookup "code_challenge" = some (s256Challenge v) := by
  have hv : v = env.verifier := by
    by_cases hsb : env.skipBrowser
    · cases hmi : env.manualInput with
      | error m =>
        cases hwr : env.wrapResult <;>
          simp [performOIDCLogin, hsb, hmi, bootstrapEvents, hwr] at h
      | ok input =>
        by_cases hin : input = "" <;>
        cases hwr : env.wrapResult <;>
          simp [performOIDCLogin, hsb, hmi, hin, bootstrapEvents, hwr] at h <;>
          exact h.2
    · cases hwo : env.waitOutcome with
      | timeout =>
        cases hwr : env.wrapResult <;>
          simp [performOIDCLogin, hsb, waiterSelect, hwo, bootstrapEvents, hwr] at h
      | result r =>
        cases herr : r.error with
        | some e =>
          cases hwr : env.wrapResult <;>
            simp [performOIDCLogin, hsb, waiterSelect, hwo, herr, bootstrapEvents, hwr] at h
        | none =>
          by_cases hc : r.code = "" <;>
          cases hwr : env.wrapResult <;>
            simp [performOIDCLogin, hsb, waiterSelect, hwo, herr, hc,
                  bootstrapEvents, hwr] at h <;>
            exact h.2
  refine ⟨hv, ?_⟩
  subst hv
  cases hwr : env.wrapResult <;>
    simp [authURLParamsOf, autoLoginParamsOf, hwr, List.lookup]

/-- C5 witness: the successful run exchanges with the attempt's verifier,
whose S256 transform is the URL's `code_challenge`. -/
theorem c5_pkce_binding_witness :
    "dBjftJeZ4CVP-mB92K27uhbUJU1p1r_wW1gFWFOEjXk" = envBase.verifier
    ∧ (authURLParamsOf envBase).lookup "code_challenge"
        = some (s256Challenge "dBjftJeZ4CVP-mB92K27uhbUJU1p1r_wW1gFWFOEjXk") :=
  c5_pkce_binding envBase "authcode1" "dBjftJeZ4CVP-mB92K27uhbUJU1p1r_wW1gFWFOEjXk"
    (by decide)

/- ## C7: bootstrap-token failure is best-effort -/

/-- C7: when `CreateWrappedToken` fails, the failure surfaces only as a
warning in the trace, the authorization URL carries no `wrapped_token`
query parameter, and a run with a valid callback and a well-formed token
response still completes with the identity token — the bootstrap failure
never aborts the login. -/
theorem c7_bootstrap_best_effort (env : OIDCEnv) (e : String)
    (h : env.wrapResult = .error e) :
    Event.warnBootstrap e ∈ (performOIDCLogin env).trace
    ∧ (authURLParamsOf env).all (fun p => p.1 != "wrapped_token") = true
    ∧ (∀ r t s, env.skipBrowser = false → env.waitOutcome = .result r →
        r.error = none → r.code ≠ "" →
        env.exchangeOutcome = .response t →
        extraString t "id_token" = some s → s ≠ "" →
        (performOIDCLogin env).result = .ok s) := by
  refine ⟨?_, ?_, ?_⟩
  · by_cases hsb : env.skipBrowser
    · cases hmi : env.manualInput with
      | error m =>
        simp [performOIDCLogin, hsb, hmi, bootstrapEvents, h]
      | ok input =>
        by_cases hin : input = "" <;>
          simp [performOIDCLogin, hsb, hmi, hin, bootstrapEvents, h]
    · cases hwo : env.waitOutcome with
      | timeout =>
        simp [performOIDCLogin, hsb, waiterSelect, hwo, bootstrapEvents, h]
      | result r =>
        cases herr : r.error with
        | some e2 =>
          simp [performOIDCLogin, hsb, waiterSelect, hwo, herr, bootstrapEvents, h]
        | none =>
          by_cases hc : r.code = "" <;>
            simp [performOIDCLogin, hsb, waiterSelect, hwo, herr, hc, bootstrapEvents, h]
  · simp [authURLParamsOf, autoLoginParamsOf, h]
  · intro r t s hsb hwo herr hc hex hid hs
    simp [performOIDCLogin, hsb, waiterSelect, hwo, herr, hc, hex,
          exchangeCodeForToken, hid, hs]

/-- C7 witness: bootstrap fails, callback and exchange succeed, login
completes. -/
theorem c7_bootstrap_best_effort_witness :
    Event.warnBootstrap "permission denied" ∈ (performOIDCLogin envWrapFail).trace
    ∧ (authURLParamsOf envWrapFail).all (fun p => p.1 != "wrapped_token") = true
    ∧ (performOIDCLogin envWrapFail).result = .ok "eyXYZ" := by
  have h := c7_bootstrap_best_effort envWrapFail "permission denied" rfl
  exact ⟨h.1, h.2.1,
    h.2.2 ⟨"authcode1", "state", none⟩ tokWithID "eyXYZ" rfl rfl rfl
      (by decide) rfl (by decide) (by decide)⟩

/- ## C8: the state parameter -/

/-- C8 counterexample: two attempts drawing different randomness still send
the same `state` parameter, the fixed literal `"state"` passed to
`AuthCodeURL` — the state is a constant, not a per-attempt random value. -/
theorem c8_counterexample :
    envRandomA.verifier ≠ envRandomB.verifier
    ∧ (authURLParamsOf envRandomA).lookup "state" = some "state"
    ∧ (authURLParamsOf envRandomB).lookup "state" = some "state" :=
  ⟨by decide, rfl, rfl⟩

/-- C8 (amended): the `state` value of every attempt's authorization URL is
the fixed constant string `"state"`, independent of the attempt's
randomness. -/
theorem c8_state_is_constant (env : OIDCEnv) :
    (authURLParamsOf env).lookup "state" = some "state" := by
  cases hwr : env.wrapResult <;>
    simp [authURLParamsOf, autoLoginParamsOf, hwr, List.lookup]

/- ## C9: the exchange only runs with a non-empty code -/

/-- C9: on every path, browser or manual, any token-exchange call in the
trace carries a non-empty authorization code; when the resolved code is
empty the run returns the no-authorization-code error without any exchange
call. -/
theorem c9_nonempty_code_guard (env : OIDCEnv) :
    exchangeCodesNonEmpty (performOIDCLogin env).trace = true
    ∧ (∀ r, env.skipBrowser = false → env.waitOutcome = .result r →
        r.error = none → r.code = "" →
        (performOIDCLogin env).result = .error "no authorization code received"
        ∧ (performOIDCLogin env).trace.any isExchangeEvent = false)
    ∧ (env.skipBrowser = true → env.manualInput = .ok "" →
        (performOIDCLogin env).result = .error "no authorization code received"
        ∧ (performOIDCLogin env).trace.any isExchangeEvent = false) := by
  refine ⟨?_, ?_, ?_⟩
  · by_cases hsb : env.skipBrowser
    · cases hmi : env.manualInput with
      | error m =>
        cases hwr : env.wrapResult <;>
          simp [performOIDCLogin, hsb, hmi, bootstrapEvents, hwr, exchangeCodesNonEmpty]
      | ok input =>
        by_cases hin : input = "" <;>
        cases hwr : env.wrapResult <;>
          simp [performOIDCLogin, hsb, hmi, hin, bootstrapEvents, hwr, exchangeCodesNonEmpty]
    · cases hwo : env.waitOutcome with
      | timeout =>
        cases hwr : env.wrapResult <;>
          simp [performOIDCLogin, hsb, waiterSelect, hwo, bootstrapEvents, hwr,
                exchangeCodesNonEmpty]
      | result r =>
        cases herr : r.error with
        | some e =>
          cases hwr : env.wrapResult <;>
            simp [performOIDCLogin, hsb, waiterSelect, hwo, herr, bootstrapEvents, hwr,
                  exchangeCodesNonEmpty]
        | none =>
          by_cases hc : r.code = "" <;>
          cases hwr : env.wrapResult <;>
            simp [performOIDCLogin, hsb, waiterSelect, hwo, herr, hc, bootstrapEvents, hwr,
                  exchangeCodesNonEmpty]
  · intro r hsb hwo herr hc
    cases hwr : env.wrapResult <;>
      simp [performOIDCLogin, hsb, waiterSelect, hwo, herr, hc, bootstrapEvents, hwr,
            isExchangeEvent]
  · intro hsb hmi
    cases hwr : env.wrapResult <;>
      simp [performOIDCLogin, hsb, hmi, bootstrapEvents, hwr, isExchangeEvent]

/-- C9 witness: a callback carrying an empty code makes the run fail with
the no-authorization-code error, with no exchange call. -/
theorem c9_nonempty_code_guard_witness :
    (performOIDCLogin envEmptyCode).result = .error "no authorization code received"
    ∧ (performOIDCLogin envEmptyCode).trace.any isExchangeEvent = false :=
  (c9_nonempty_code_guard envEmptyCode).2.1 ⟨"", "", none⟩ rfl rfl rfl rfl

end GatePlane
